import Mathlib

/-!
Shallow embedding of the NEGAIBANKING wallet/ledger core.

The definitions below translate the wallet service and the mounted wallet
controller of the repository:

* `src/backend/src/models/Wallet.js` (and the `part_002` iteration with
  `accountNumber` and `hasSufficientBalance`): the wallet document — owner id,
  account number, balance, embedded ledger of entries.  The schema declares a
  unique index on `ledger.reference`; a MongoDB unique multikey index rejects a
  write that would put a reference already present in a *different* document,
  while duplicates inside one document's array are left to the application
  checks.  That write-time behaviour is modelled by the `refInOther` guard that
  every save performs.
* `src/backend/src/services/walletService.js` (the second, current iteration,
  lines 674-1800 of the bundled file): `creditWallet`, `debitWallet`,
  `transferFunds`, `initiateExternalTransfer`.  MongoDB sessions give each
  operation all-or-nothing semantics: a thrown error aborts the transaction and
  the database keeps its previous state, which the embedding renders as
  `Except` — an `error` result carries no state, the caller keeps the old one.
  `uuidv4()` calls are nondeterministic inputs: the service builds references
  from the literal prefixes of the source around caller-supplied uuid strings.
* `src/backend/src/controllers/walletController.js` (the controller mounted by
  `walletRoutes.js`): `verifyPayment`, `handleFlutterwaveWebhook`, `getBalance`;
  plus the `transferFunds` controller iteration kept in `utils/logger.js`
  (lines 339-357), the account-number based one exercised by the test suite.
* `src/backend/src/middlewares/validateRequest.js` with the `webhookSchema` of
  `walletRoutes.js`: the body validation that runs before the webhook handler.

Monetary amounts are JavaScript numbers holding naira amounts; arithmetic on
them is embedded as `Int` (the paths modelled only add, subtract and compare).
The `isNaN` guards of the source are vacuous over `Int` and are noted where
they occur.  Network calls to the Flutterwave gateway (account resolution,
transfer submission, payment verification) are the only external inputs; each
is passed in as an explicit parameter describing the gateway's answer.
-/

namespace NegaiBanking

/-- Direction of a ledger entry: the `type` enum of the wallet schema. -/
inductive EntryType where
  | credit
  | debit
deriving Repr, DecidableEq

/-- Status enum of a ledger entry (`pending` is the schema default, every
entry written by the service is `completed`). -/
inductive EntryStatus where
  | pending
  | completed
  | failed
deriving Repr, DecidableEq

/-- One embedded ledger entry of a wallet document.  `transferFee` and
`flutterwaveTxId` embed the `metadata` object (`{ transferFee }` on external
debits, `{ flutterwaveTxId }` on gateway credits); `createdAt` timestamps are
not modelled. -/
structure LedgerEntry where
  type : EntryType
  amount : Int
  reference : String
  status : EntryStatus
  source : String
  target : Option String := none
  targetBank : Option String := none
  description : Option String := none
  createdBy : Nat := 0
  transferFee : Int := 0
  flutterwaveTxId : Option String := none
deriving Repr, DecidableEq

/-- A wallet document: owner, routable account number, balance, embedded
ledger. -/
structure Wallet where
  userId : Nat
  accountNumber : String
  balance : Int
  ledger : List LedgerEntry
deriving Repr, DecidableEq

/-- The slice of a user document the wallet flows read: identity, account
number, email (webhook lookup key), bank name. -/
structure UserRec where
  userId : Nat
  accountNumber : String
  email : String
  bankName : Option String := none
deriving Repr, DecidableEq

/-- The persisted state the wallet flows touch: the user collection and the
wallet collection. -/
structure SysState where
  users : List UserRec
  wallets : List Wallet
deriving Repr, DecidableEq

/-- Embedding of `Wallet.findOne({ userId })`. -/
def findWallet (st : SysState) (uid : Nat) : Option Wallet :=
  st.wallets.find? (fun w => w.userId == uid)

/-- Embedding of `User.findOne({ accountNumber })`. -/
def findUserByAccount (st : SysState) (acct : String) : Option UserRec :=
  st.users.find? (fun u => u.accountNumber == acct)

/-- Embedding of `User.findById`. -/
def findUserById (st : SysState) (uid : Nat) : Option UserRec :=
  st.users.find? (fun u => u.userId == uid)

/-- Embedding of `User.findOne({ email })`. -/
def findUserByEmail (st : SysState) (email : String) : Option UserRec :=
  st.users.find? (fun u => u.email == email)

/-- Embedding of `wallet.ledger.find((tx) => tx.reference === reference)`
reduced to its use as an existence check. -/
def hasRef (w : Wallet) (ref : String) : Bool :=
  w.ledger.any (fun tx => tx.reference == ref)

/-- Write-time behaviour of the unique multikey index on `ledger.reference`:
a save is rejected when the reference is already present in a wallet document
other than the one being written. -/
def refInOther (st : SysState) (uid : Nat) (ref : String) : Bool :=
  st.wallets.any (fun w => w.userId != uid && hasRef w ref)

/-- Committing `wallet.save()`: the document with the same `userId` (a unique
indexed key) is replaced. -/
def updateWallet (st : SysState) (w : Wallet) : SysState :=
  { st with wallets := st.wallets.map (fun x => if x.userId == w.userId then w else x) }

/-- Error taxonomy of the wallet service and controller paths, matching the
`throw new Error(...)` sites of the source. -/
inductive WalletErr where
  | walletNotFound
  | senderWalletNotFound
  | recipientNotFound
  | recipientWalletNotFound
  | duplicateTransaction
  | duplicateIndexKey
  | insufficientBalance
  | bankVerificationFailed
  | transferInitiationFailed
deriving Repr, DecidableEq

/-- Embedding of `walletService.creditWallet` (current iteration): find the
wallet, reject a reference already in its ledger, then atomically add the
amount and append one completed credit entry.  The `isNaN` guards on
`validatedBalance`/`validatedAmount` are vacuous over `Int`.  The save carries
the index check on the new reference. -/
def creditWallet (st : SysState) (userId : Nat) (amount : Int) (reference : String)
    (source : String) (description : Option String) (flutterwaveTxId : Option String)
    (senderAccountNumber senderBankName : Option String) :
    Except WalletErr (SysState × Wallet × LedgerEntry) :=
  match findWallet st userId with
  | none => .error .walletNotFound
  | some wallet =>
    if hasRef wallet reference then .error .duplicateTransaction
    else
      let transaction : LedgerEntry :=
        { type := .credit, amount := amount, reference := reference,
          status := .completed, source := source, description := description,
          createdBy := userId, flutterwaveTxId := flutterwaveTxId,
          target := senderAccountNumber, targetBank := senderBankName }
      let wallet' : Wallet :=
        { wallet with balance := wallet.balance + amount,
                      ledger := wallet.ledger ++ [transaction] }
      if refInOther st userId reference then .error .duplicateIndexKey
      else .ok (updateWallet st wallet', wallet', transaction)

/-- Embedding of `walletService.debitWallet` (current iteration): the
insufficient-balance check runs first, inside the same transaction as the
mutation, then the duplicate-reference check, then the atomic decrement and
append of one completed debit entry. -/
def debitWallet (st : SysState) (userId : Nat) (amount : Int) (reference : String)
    (target : Option String) (description : Option String) :
    Except WalletErr (SysState × Wallet × LedgerEntry) :=
  match findWallet st userId with
  | none => .error .walletNotFound
  | some wallet =>
    if wallet.balance < amount then .error .insufficientBalance
    else if hasRef wallet reference then .error .duplicateTransaction
    else
      let transaction : LedgerEntry :=
        { type := .debit, amount := amount, reference := reference,
          status := .completed, source := "transfer", target := target,
          description := description, createdBy := userId }
      let wallet' : Wallet :=
        { wallet with balance := wallet.balance - amount,
                      ledger := wallet.ledger ++ [transaction] }
      if refInOther st userId reference then .error .duplicateIndexKey
      else .ok (updateWallet st wallet', wallet', transaction)

/-- Embedding of `walletService.transferFunds` (current iteration).  The two
references are built from the literal prefixes of the source around the two
`uuidv4()` draws `u1`, `u2`.  Sender lookup, sender balance check, recipient
lookup, duplicate checks, then both mutations inside one session; the two
saves run in order, each carrying the index check, and any failure aborts the
whole transaction. -/
def transferFunds (st : SysState) (senderId : Nat) (recipientAccountNumber : String)
    (amount : Int) (u1 u2 : String) (description : Option String) :
    Except WalletErr (SysState × LedgerEntry × LedgerEntry) :=
  match findWallet st senderId with
  | none => .error .senderWalletNotFound
  | some senderWallet =>
    if senderWallet.balance < amount then .error .insufficientBalance
    else
      match findUserByAccount st recipientAccountNumber with
      | none => .error .recipientNotFound
      | some recipient =>
        match findWallet st recipient.userId with
        | none => .error .recipientWalletNotFound
        | some recipientWallet =>
          let senderReference := "TRANSFER-SENDER-" ++ u1
          let recipientReference := "TRANSFER-RECIPIENT-" ++ u2
          if hasRef senderWallet senderReference || hasRef recipientWallet recipientReference then
            .error .duplicateTransaction
          else
            let senderTransaction : LedgerEntry :=
              { type := .debit, amount := amount, reference := senderReference,
                status := .completed, source := "transfer",
                target := some recipient.accountNumber,
                targetBank := some (recipient.bankName.getD "NEG AI Bank"),
                description := description, createdBy := senderId }
            let senderWallet' : Wallet :=
              { senderWallet with balance := senderWallet.balance - amount,
                                  ledger := senderWallet.ledger ++ [senderTransaction] }
            let recipientTransaction : LedgerEntry :=
              { type := .credit, amount := amount, reference := recipientReference,
                status := .completed, source := "transfer", target := none,
                targetBank := some "NEG AI Bank",
                description := some ("Received from " ++ senderWallet.accountNumber),
                createdBy := senderId }
            let recipientWallet' : Wallet :=
              { recipientWallet with balance := recipientWallet.balance + amount,
                                     ledger := recipientWallet.ledger ++ [recipientTransaction] }
            if refInOther st senderId senderReference then .error .duplicateIndexKey
            else
              let st1 := updateWallet st senderWallet'
              if refInOther st1 recipient.userId recipientReference then .error .duplicateIndexKey
              else .ok (updateWallet st1 recipientWallet', senderTransaction, recipientTransaction)

/-- Embedding of `walletService.initiateExternalTransfer`: the sender must
cover `amount` plus the fixed 50 NGN fee; the destination account must resolve
at the gateway (`bankAccountResolves`); the provider-balance pre-check of the
source is wrapped in a catch that continues on any error, so it has no effect;
then the payout request is submitted and only a gateway acceptance
(`gatewayAccepts`) lets the debit commit — the entry records `amount`, with the
fee only in `metadata.transferFee`.  The reference is built from the literal
`EXT-TRANSFER-` prefix around the `uuidv4()` draw `u`. -/
def initiateExternalTransfer (st : SysState) (userId : Nat) (amount : Int)
    (recipientAccountNumber : String) (recipientBankName : Option String)
    (u : String) (description : Option String)
    (bankAccountResolves gatewayAccepts : Bool) :
    Except WalletErr (SysState × Wallet × LedgerEntry) :=
  match findWallet st userId with
  | none => .error .senderWalletNotFound
  | some senderWallet =>
    let transferFee : Int := 50
    let totalAmount := amount + transferFee
    if senderWallet.balance < totalAmount then .error .insufficientBalance
    else if !bankAccountResolves then .error .bankVerificationFailed
    else
      let reference := "EXT-TRANSFER-" ++ u
      if hasRef senderWallet reference then .error .duplicateTransaction
      else if !gatewayAccepts then .error .transferInitiationFailed
      else
        let transaction : LedgerEntry :=
          { type := .debit, amount := amount, reference := reference,
            status := .completed, source := "external_transfer",
            target := some recipientAccountNumber, targetBank := recipientBankName,
            description := description, createdBy := userId,
            transferFee := transferFee }
        let senderWallet' : Wallet :=
          { senderWallet with balance := senderWallet.balance - totalAmount,
                              ledger := senderWallet.ledger ++ [transaction] }
        if refInOther st userId reference then .error .duplicateIndexKey
        else .ok (updateWallet st senderWallet', senderWallet', transaction)

/-- Answer of the gateway's authoritative verification endpoint
(`verifyFlutterwavePayment` response): overall status, verified amount, and
the paying customer's email (used only by the webhook path).  The controllers
call the endpoint through `Option`: `none` stands for the axios call throwing
(network failure, unknown transaction), which the controllers catch. -/
structure GatewayVerification where
  status : String
  amount : Int
  customerEmail : Option String := none
deriving Repr, DecidableEq

/-- Response of the verify-payment controller: HTTP status, message, and the
`balance` field of the success payload (absent from every error payload). -/
structure VerifyPaymentResult where
  httpStatus : Nat
  message : String
  balance : Option Int
deriving Repr, DecidableEq

/-- Embedding of the mounted `walletController.verifyPayment`: wallet lookup
(404), duplicate-reference check answered with a hard 409, gateway
verification (500 on a thrown call, 400 on a non-success status), funding
ceiling (400), then `creditWallet`; a service error is caught as 500.  The
pair returned is the HTTP response and the database state after the call. -/
def verifyPayment (st : SysState) (userId : Nat) (transactionId reference : String)
    (gateway : Option GatewayVerification) : VerifyPaymentResult × SysState :=
  match findWallet st userId with
  | none => ({ httpStatus := 404, message := "Wallet not found", balance := none }, st)
  | some wallet =>
    if hasRef wallet reference then
      ({ httpStatus := 409, message := "Transaction already processed", balance := none }, st)
    else
      match gateway with
      | none =>
        ({ httpStatus := 500, message := "Internal server error during payment verification",
           balance := none }, st)
      | some v =>
        if v.status != "success" then
          ({ httpStatus := 400, message := "Payment verification failed", balance := none }, st)
        else if v.amount > 1000000 then
          ({ httpStatus := 400, message := "Verified amount exceeds NGN 1,000,000",
             balance := none }, st)
        else
          match creditWallet st userId v.amount reference "flutterwave"
              (some "Wallet funding via Flutterwave") (some transactionId) none none with
          | .error _ =>
            ({ httpStatus := 500, message := "Internal server error during payment verification",
               balance := none }, st)
          | .ok (st', wallet', _) =>
            ({ httpStatus := 200, message := "Payment verified and wallet credited",
               balance := some wallet'.balance }, st')

/-- The webhook body as the route receives it, before validation: the three
fields the handler destructures, each possibly absent. -/
structure RawWebhookBody where
  id : Option String
  txRef : Option String
  status : Option String
deriving Repr, DecidableEq

/-- Response of the webhook controller: HTTP status, the `status` field of the
JSON body, and the accompanying message. -/
structure WebhookResult where
  httpStatus : Nat
  bodyStatus : String
  message : String
deriving Repr, DecidableEq

/-- Embedding of the mounted `walletController.handleFlutterwaveWebhook`:
every branch — missing parameters, non-successful event, thrown or failed
gateway verification, unknown user, missing wallet, duplicate reference,
ceiling breach, credit failure — acknowledges the gateway with HTTP 200 and a
`{ status: "received" }` body; only the fully successful path also credits the
wallet. -/
def handleFlutterwaveWebhook (st : SysState) (payload : RawWebhookBody)
    (gateway : Option GatewayVerification) : WebhookResult × SysState :=
  match payload.id, payload.txRef, payload.status with
  | some transactionId, some reference, some status =>
    if status != "successful" then
      ({ httpStatus := 200, bodyStatus := "received", message := "Payment " ++ status }, st)
    else
      match gateway with
      | none =>
        ({ httpStatus := 200, bodyStatus := "received", message := "Error processing webhook" }, st)
      | some v =>
        if v.status != "success" then
          ({ httpStatus := 200, bodyStatus := "received",
             message := "Payment verification failed" }, st)
        else
          match v.customerEmail.bind (fun e => findUserByEmail st e) with
          | none =>
            ({ httpStatus := 200, bodyStatus := "received", message := "User not found" }, st)
          | some user =>
            match findWallet st user.userId with
            | none =>
              ({ httpStatus := 200, bodyStatus := "received", message := "Wallet not found" }, st)
            | some wallet =>
              if hasRef wallet reference then
                ({ httpStatus := 200, bodyStatus := "received",
                   message := "Transaction already processed" }, st)
              else if v.amount > 1000000 then
                ({ httpStatus := 200, bodyStatus := "received",
                   message := "Verified amount exceeds NGN 1,000,000" }, st)
              else
                match creditWallet st user.userId v.amount reference "flutterwave"
                    (some "Wallet funding via Flutterwave webhook") (some transactionId)
                    none none with
                | .error _ =>
                  ({ httpStatus := 200, bodyStatus := "received",
                     message := "Error processing webhook" }, st)
                | .ok (st', _, _) =>
                  ({ httpStatus := 200, bodyStatus := "received",
                     message := "Payment verified and wallet credited" }, st')
  | _, _, _ =>
    ({ httpStatus := 200, bodyStatus := "received",
       message := "Invalid or missing webhook parameters" }, st)

/-- Embedding of the `webhookSchema` body validation of `walletRoutes.js` as
`validateRequest` applies it: `id` and `txRef` nonempty strings, `status`
drawn from the zod enum. -/
def validateWebhookBody (b : RawWebhookBody) : Except String RawWebhookBody :=
  match b.id, b.txRef, b.status with
  | some i, some r, some s =>
    if i.length ≥ 1 && r.length ≥ 1 && (s == "successful" || s == "failed" || s == "cancelled") then
      .ok b
    else .error "Invalid request data"
  | _, _, _ => .error "Invalid request data"

/-- The POST /wallet/webhook route as mounted: `validateRequest(webhookSchema)`
answers 400 on a body failing validation, otherwise the handler runs. -/
def webhookRoute (st : SysState) (b : RawWebhookBody)
    (gateway : Option GatewayVerification) : WebhookResult × SysState :=
  match validateWebhookBody b with
  | .error msg => ({ httpStatus := 400, bodyStatus := "error", message := msg }, st)
  | .ok p => handleFlutterwaveWebhook st p gateway

/-- Response of the transfer controller: HTTP status and message. -/
structure TransferResult where
  httpStatus : Nat
  message : String
deriving Repr, DecidableEq

/-- Embedding of the account-number transfer controller (the iteration kept in
`utils/logger.js`, the one the test suite pins): sender lookup, the
self-transfer guard comparing the requested account number against the
sender's own, recipient lookup, then the service call; a service error is
caught as 500. -/
def transferFundsController (st : SysState) (senderId : Nat)
    (recipientAccountNumber : String) (amount : Int) (description : Option String)
    (u1 u2 : String) : TransferResult × SysState :=
  match findUserById st senderId with
  | none => ({ httpStatus := 404, message := "Sender not found" }, st)
  | some sender =>
    if recipientAccountNumber == sender.accountNumber then
      ({ httpStatus := 400, message := "Cannot transfer to your own account" }, st)
    else
      match findUserByAccount st recipientAccountNumber with
      | none => ({ httpStatus := 404, message := "Recipient not found" }, st)
      | some _ =>
        match transferFunds st senderId recipientAccountNumber amount u1 u2 description with
        | .error _ => ({ httpStatus := 500, message := "Internal server error during transfer" }, st)
        | .ok (st', _, _) => ({ httpStatus := 200, message := "Transfer successful" }, st')

/-- Projection of a ledger entry into the transaction objects the balance
endpoint returns (its `.map` keeps these fields; `createdAt` is not
modelled). -/
structure TxView where
  type : EntryType
  amount : Int
  reference : String
  status : EntryStatus
  source : String
  target : Option String
  description : Option String
deriving Repr, DecidableEq

/-- The field selection the balance endpoint applies to each returned ledger
entry. -/
def txView (tx : LedgerEntry) : TxView :=
  { type := tx.type, amount := tx.amount, reference := tx.reference,
    status := tx.status, source := tx.source, target := tx.target,
    description := tx.description }

/-- Response of the balance endpoint: HTTP status, balance, and the recent
transactions of the success payload. -/
structure BalanceResult where
  httpStatus : Nat
  balance : Option Int
  transactions : Option (List TxView)
deriving Repr, DecidableEq

/-- Embedding of the mounted `walletController.getBalance`.  When no wallet
exists the controller creates and saves a fresh wallet with balance 0 (the
iteration it belongs to has no account number on the wallet schema, embedded
as the empty string) and answers 200 with balance 0.  When a wallet exists it
answers its balance together with `wallet.ledger.slice(-10)` mapped through
the field selection; `List.drop (length - 10)` is exactly `slice(-10)`, since
truncated subtraction realises the `max(length - 10, 0)` start index of a
negative-index slice. -/
def getBalance (st : SysState) (userId : Nat) : BalanceResult × SysState :=
  match findWallet st userId with
  | none =>
    let newWallet : Wallet := { userId := userId, accountNumber := "", balance := 0, ledger := [] }
    ({ httpStatus := 200, balance := some 0, transactions := some [] },
     { st with wallets := st.wallets ++ [newWallet] })
  | some wallet =>
    let recentTransactions := (wallet.ledger.drop (wallet.ledger.length - 10)).map txView
    ({ httpStatus := 200, balance := some wallet.balance,
       transactions := some recentTransactions }, st)

/-- One completed-or-attempted mutation of the wallet store: the four write
operations of the service, each carrying the inputs (and gateway answers) of
one invocation. -/
inductive WalletOp where
  | credit (userId : Nat) (amount : Int) (reference : String) (source : String)
      (description flutterwaveTxId senderAccountNumber senderBankName : Option String)
  | debit (userId : Nat) (amount : Int) (reference : String)
      (target description : Option String)
  | transfer (senderId : Nat) (recipientAccountNumber : String) (amount : Int)
      (u1 u2 : String) (description : Option String)
  | extTransfer (userId : Nat) (amount : Int) (recipientAccountNumber : String)
      (recipientBankName : Option String) (u : String) (description : Option String)
      (bankAccountResolves gatewayAccepts : Bool)
deriving Repr

/-- The database state after one service invocation: a committed transaction
yields the new state, an aborted one leaves the state as it was. -/
def applyOp (st : SysState) (op : WalletOp) : SysState :=
  match op with
  | .credit uid amount ref source desc fwId sAcct sBank =>
    match creditWallet st uid amount ref source desc fwId sAcct sBank with
    | .ok (st', _, _) => st'
    | .error _ => st
  | .debit uid amount ref target desc =>
    match debitWallet st uid amount ref target desc with
    | .ok (st', _, _) => st'
    | .error _ => st
  | .transfer sid acct amount u1 u2 desc =>
    match transferFunds st sid acct amount u1 u2 desc with
    | .ok (st', _, _) => st'
    | .error _ => st
  | .extTransfer uid amount acct bank u desc bankOk gwOk =>
    match initiateExternalTransfer st uid amount acct bank u desc bankOk gwOk with
    | .ok (st', _, _) => st'
    | .error _ => st

/-- The database state after a sequence of service invocations. -/
def applyOps (st : SysState) (ops : List WalletOp) : SysState :=
  ops.foldl applyOp st

/-- Sum of the amounts of the completed credit entries of a ledger. -/
def completedCredits (l : List LedgerEntry) : Int :=
  ((l.filter (fun e => e.type == EntryType.credit && e.status == EntryStatus.completed)).map
    (fun e => e.amount)).sum

/-- Sum of the amounts of the completed debit entries of a ledger. -/
def completedDebits (l : List LedgerEntry) : Int :=
  ((l.filter (fun e => e.type == EntryType.debit && e.status == EntryStatus.completed)).map
    (fun e => e.amount)).sum

/-- Sum of the `metadata.transferFee` values of the completed debit entries of
a ledger. -/
def completedDebitFees (l : List LedgerEntry) : Int :=
  ((l.filter (fun e => e.type == EntryType.debit && e.status == EntryStatus.completed)).map
    (fun e => e.transferFee)).sum

/-- The spec's balance invariant, as stated: balance equals completed credits
minus completed debits. -/
def walletBalanced (w : Wallet) : Prop :=
  w.balance = completedCredits w.ledger - completedDebits w.ledger

/-- The balance identity the code actually maintains: completed credits minus
completed debits minus the transfer fees carried in debit metadata. -/
def walletBalancedWithFees (w : Wallet) : Prop :=
  w.balance = completedCredits w.ledger - completedDebits w.ledger - completedDebitFees w.ledger

/-- The fee-aware balance identity, over every wallet of the state. -/
def stateBalancedWithFees (st : SysState) : Prop :=
  ∀ w ∈ st.wallets, walletBalancedWithFees w

/-- References of one wallet's ledger, in ledger order. -/
def walletRefs (w : Wallet) : List String :=
  w.ledger.map (fun e => e.reference)

/-- Every ledger reference of the system, wallet by wallet. -/
def allRefs (st : SysState) : List String :=
  st.wallets.flatMap walletRefs

/-- Global uniqueness of ledger references: no reference occurs twice across
the whole ledger, the idempotency-key invariant. -/
def refsUnique (st : SysState) : Prop :=
  (allRefs st).Nodup

/-- Uniqueness of wallet owners, the unique index on `userId` of the wallet
schema. -/
def walletIdsUnique (st : SysState) : Prop :=
  (st.wallets.map (fun w => w.userId)).Nodup

instance (w : Wallet) : Decidable (walletBalanced w) := by
  unfold walletBalanced; infer_instance

instance (w : Wallet) : Decidable (walletBalancedWithFees w) := by
  unfold walletBalancedWithFees; infer_instance

instance (st : SysState) : Decidable (stateBalancedWithFees st) := by
  unfold stateBalancedWithFees; exact List.decidableBAll _ _

instance (st : SysState) : Decidable (refsUnique st) := by
  unfold refsUnique; exact List.nodupDecidable _

instance (st : SysState) : Decidable (walletIdsUnique st) := by
  unfold walletIdsUnique; exact List.nodupDecidable _

instance {ε α : Type} [DecidableEq ε] [DecidableEq α] :
    DecidableEq (Except ε α)
  | .error e1, .error e2 =>
    if h : e1 = e2 then .isTrue (h ▸ rfl) else .isFalse (fun hh => h (Except.error.inj hh))
  | .error _, .ok _ => .isFalse (fun hh => Except.noConfusion hh)
  | .ok _, .error _ => .isFalse (fun hh => Except.noConfusion hh)
  | .ok a1, .ok a2 =>
    if h : a1 = a2 then .isTrue (h ▸ rfl) else .isFalse (fun hh => h (Except.ok.inj hh))

/-! Concrete fixtures used by witnesses and counterexamples, mirroring the
two-user setup of the repository's wallet API test suite. -/

/-- First test user. -/
def aliceUser : UserRec :=
  { userId := 1, accountNumber := "7042449380", email := "avalawson452@gmail.com" }

/-- Second test user. -/
def karlUser : UserRec :=
  { userId := 2, accountNumber := "7042449381", email := "karlearnder@gmail.com" }

/-- First test wallet, freshly created. -/
def aliceWallet : Wallet :=
  { userId := 1, accountNumber := "7042449380", balance := 0, ledger := [] }

/-- Second test wallet, freshly created. -/
def karlWallet : Wallet :=
  { userId := 2, accountNumber := "7042449381", balance := 0, ledger := [] }

/-- Two registered users, two empty wallets. -/
def baseState : SysState :=
  { users := [aliceUser, karlUser], wallets := [aliceWallet, karlWallet] }

/-- Fund 1050, then send an external payout of 1000 carrying the fixed 50
fee: the sequence whose final state separates the spec's balance invariant
from the fee-aware one. -/
def fundThenPayout : List WalletOp :=
  [ .credit 1 1050 "FUND-A" "flutterwave" none none none none,
    .extTransfer 1 1000 "0011223344" none "4fa2" none true true ]

/-- A successful gateway verification of a 500 NGN payment. -/
def verifiedPayment : GatewayVerification :=
  { status := "success", amount := 500 }

/-- A wallet holding 100 whose ledger already carries reference `r`. -/
def seededLedgerWallet : Wallet :=
  { userId := 1, accountNumber := "7042449380", balance := 100,
    ledger := [{ type := EntryType.debit, amount := 10, reference := "r",
                 status := EntryStatus.completed, source := "transfer" }] }

/-- State around `seededLedgerWallet`. -/
def seededState : SysState :=
  { users := [aliceUser], wallets := [seededLedgerWallet] }

/-- Sender wallet holding 1040: one short of covering 1000 plus the 50 fee. -/
def wallet1040 : Wallet :=
  { userId := 1, accountNumber := "7042449380", balance := 1040, ledger := [] }

/-- State around `wallet1040`. -/
def state1040 : SysState :=
  { users := [aliceUser], wallets := [wallet1040] }

/-- Sender wallet holding 1050: exactly 1000 plus the 50 fee. -/
def wallet1050 : Wallet :=
  { userId := 1, accountNumber := "7042449380", balance := 1050, ledger := [] }

/-- State around `wallet1050`. -/
def state1050 : SysState :=
  { users := [aliceUser], wallets := [wallet1050] }

/-- A registered user who has no wallet document. -/
def walletlessState : SysState :=
  { users := [aliceUser], wallets := [] }

/-- Ledger entry number `i` of the twelve-entry fixture. -/
def numberedEntry (i : Nat) : LedgerEntry :=
  { type := EntryType.credit, amount := (i : Int), reference := "FUND-" ++ toString i,
    status := EntryStatus.completed, source := "flutterwave" }

/-- A wallet whose ledger holds twelve entries, more than the ten the balance
endpoint returns. -/
def twelveEntryWallet : Wallet :=
  { userId := 1, accountNumber := "7042449380", balance := 66,
    ledger := (List.range 12).map numberedEntry }

/-- State around `twelveEntryWallet`. -/
def twelveEntryState : SysState :=
  { users := [aliceUser], wallets := [twelveEntryWallet] }

/-- Fund 7000, then transfer 2500 to the second wallet: a sequence touching
both sides of the internal-transfer path. -/
def fundThenTransfer : List WalletOp :=
  [ .credit 1 7000 "FUND-D" "flutterwave" none none none none,
    .transfer 1 "7042449381" 2500 "aa" "bb" none ]

/-- Both test users registered, the first wallet funded with 10000. -/
def fundedState : SysState :=
  { users := [aliceUser, karlUser],
    wallets := [{ aliceWallet with balance := 10000 }, karlWallet] }

/-! General lemmas about the store helpers. -/

theorem findWallet_mem {st : SysState} {uid : Nat} {w : Wallet}
    (h : findWallet st uid = some w) : w ∈ st.wallets :=
  List.mem_of_find?_eq_some h

theorem findWallet_userId {st : SysState} {uid : Nat} {w : Wallet}
    (h : findWallet st uid = some w) : w.userId = uid := by
  have h2 := List.find?_some h
  simpa using h2

/-- C8.  A transfer request naming the sender's own account number is answered
400 by the controller before the wallet service runs: the state comes back
untouched, so no balance changes and no ledger entry is created. -/
theorem self_transfer_rejected (st : SysState) (senderId : Nat)
    (recipientAccountNumber : String) (amount : Int) (description : Option String)
    (u1 u2 : String) (sender : UserRec)
    (hs : findUserById st senderId = some sender)
    (heq : recipientAccountNumber = sender.accountNumber) :
    transferFundsController st senderId recipientAccountNumber amount description u1 u2 =
      ({ httpStatus := 400, message := "Cannot transfer to your own account" }, st) := by
  unfold transferFundsController
  rw [hs]
  simp [heq]

/-- Witness for `self_transfer_rejected`: the first test user wiring their own
account number as recipient. -/
theorem self_transfer_rejected_witness :
    transferFundsController baseState 1 "7042449380" 100 none "a1" "b2" =
      ({ httpStatus := 400, message := "Cannot transfer to your own account" }, baseState) :=
  self_transfer_rejected baseState 1 "7042449380" 100 none "a1" "b2" aliceUser
    (by decide) (by decide)

/-- C9 counterexample.  Calling the balance endpoint for an account without a
wallet does not fail: it answers 200 and mutates the store by saving a fresh
wallet, so the operation is neither failing nor read-only there. -/
theorem get_balance_creates_wallet :
    (getBalance walletlessState 7).1.httpStatus = 200 ∧
    (getBalance walletlessState 7).2 ≠ walletlessState := by
  decide

/-- C9 as amended.  When a wallet exists the balance endpoint is read-only —
the state comes back unchanged — and reports that wallet's stored balance;
when none exists it does not fail but saves a fresh wallet with balance 0 and
answers 200 with balance 0. -/
theorem get_balance_spec (st : SysState) (uid : Nat) :
    (∀ w, findWallet st uid = some w →
        getBalance st uid =
          ({ httpStatus := 200, balance := some w.balance,
             transactions := some ((w.ledger.drop (w.ledger.length - 10)).map txView) }, st))
    ∧ (findWallet st uid = none →
        getBalance st uid =
          ({ httpStatus := 200, balance := some 0, transactions := some [] },
           { st with wallets := st.wallets ++
               [{ userId := uid, accountNumber := "", balance := 0, ledger := [] }] })) := by
  constructor
  · intro w hw
    unfold getBalance
    rw [hw]
  · intro h
    unfold getBalance
    rw [h]

/-- Witness for `get_balance_spec`: the twelve-entry wallet is reported with
its stored balance and the state is unchanged. -/
theorem get_balance_spec_witness :
    getBalance twelveEntryState 1 =
      ({ httpStatus := 200, balance := some 66,
         transactions := some ((twelveEntryWallet.ledger.drop
           (twelveEntryWallet.ledger.length - 10)).map txView) }, twelveEntryState) :=
  (get_balance_spec twelveEntryState 1).1 twelveEntryWallet (by decide)

/-- C10.  The balance endpoint returns exactly `min N 10` transactions for a
ledger of `N` entries, and entry `i` of the answer is the field-selected image
of ledger entry `N - min N 10 + i`: the last ten entries in ledger order,
older entries never included. -/
theorem balance_returns_last_ten (st : SysState) (uid : Nat) (w : Wallet) (ts : List TxView)
    (hw : findWallet st uid = some w)
    (hts : (getBalance st uid).1.transactions = some ts) :
    ts.length = min w.ledger.length 10 ∧
    ∀ i : Nat, ts[i]? =
      (w.ledger[w.ledger.length - min w.ledger.length 10 + i]?).map txView := by
  unfold getBalance at hts
  rw [hw] at hts
  simp only [Option.some.injEq] at hts
  subst hts
  constructor
  · simp only [List.length_map, List.length_drop]
    omega
  · intro i
    rw [List.getElem?_map, List.getElem?_drop]
    have hidx : w.ledger.length - min w.ledger.length 10 = w.ledger.length - 10 := by omega
    rw [hidx]

/-- Witness for `balance_returns_last_ten`: the twelve-entry wallet yields ten
transactions and position 0 of the answer is ledger entry 2. -/
theorem balance_returns_last_ten_witness :
    ∃ ts, (getBalance twelveEntryState 1).1.transactions = some ts ∧
      ts.length = min twelveEntryWallet.ledger.length 10 ∧
      ts[0]? = (twelveEntryWallet.ledger[twelveEntryWallet.ledger.length -
        min twelveEntryWallet.ledger.length 10 + 0]?).map txView := by
  obtain ⟨h1, h2⟩ := balance_returns_last_ten twelveEntryState 1 twelveEntryWallet _
    (by decide) rfl
  exact ⟨_, rfl, h1, h2 0⟩

/-- C4 counterexample.  A debit attempt whose amount (50) is within the
balance (100) but whose reference is already in the ledger aborts with the
duplicate-transaction error instead of decrementing the balance, so the
claim's unconditional success half fails without its duplicate-reference
proviso. -/
theorem debit_duplicate_reference_aborts :
    (∃ w, findWallet seededState 1 = some w ∧ ¬ w.balance < 50) ∧
    debitWallet seededState 1 50 "r" none none = .error .duplicateTransaction := by
  constructor
  · exact ⟨seededLedgerWallet, by decide, by decide⟩
  · rfl

/-- C4 as amended.  A debit whose amount exceeds the balance aborts with the
insufficient-balance error — the check runs inside the session, before any
write, so the aborted transaction leaves balance and ledger untouched — and a
debit within the balance whose reference is fresh (neither in this wallet's
ledger nor, per the unique index, anywhere else) commits atomically: the
balance drops by the amount and exactly one completed debit entry is
appended. -/
theorem debit_wallet_spec (st : SysState) (uid : Nat) (amount : Int) (ref : String)
    (target description : Option String) (w : Wallet)
    (hw : findWallet st uid = some w) :
    (w.balance < amount →
        debitWallet st uid amount ref target description = .error .insufficientBalance)
    ∧ (¬ w.balance < amount → hasRef w ref = false → refInOther st uid ref = false →
        ∃ tx, debitWallet st uid amount ref target description =
            .ok (updateWallet st { w with balance := w.balance - amount,
                                          ledger := w.ledger ++ [tx] },
                 { w with balance := w.balance - amount, ledger := w.ledger ++ [tx] }, tx)
          ∧ tx.type = EntryType.debit ∧ tx.status = EntryStatus.completed
          ∧ tx.amount = amount ∧ tx.reference = ref ∧ tx.transferFee = 0) := by
  constructor
  · intro hlt
    unfold debitWallet
    rw [hw]
    simp [hlt]
  · intro hge hdup hother
    refine ⟨{ type := .debit, amount := amount, reference := ref,
              status := .completed, source := "transfer", target := target,
              description := description, createdBy := uid }, ?_, rfl, rfl, rfl, rfl, rfl⟩
    unfold debitWallet
    rw [hw]
    simp [hge, hdup, hother]

/-- Witness for `debit_wallet_spec`: debiting 60 from the 100-balance seeded
wallet with a fresh reference commits, and the rejection half fires on a
2000 debit. -/
theorem debit_wallet_spec_witness :
    (debitWallet seededState 1 2000 "s" none none = .error .insufficientBalance) ∧
    ∃ tx, debitWallet seededState 1 60 "s" none none =
        .ok (updateWallet seededState
              { seededLedgerWallet with
                  balance := seededLedgerWallet.balance - 60,
                  ledger := seededLedgerWallet.ledger ++ [tx] },
             { seededLedgerWallet with
                 balance := seededLedgerWallet.balance - 60,
                 ledger := seededLedgerWallet.ledger ++ [tx] }, tx)
      ∧ tx.type = EntryType.debit ∧ tx.status = EntryStatus.completed
      ∧ tx.amount = 60 ∧ tx.reference = "s" ∧ tx.transferFee = 0 := by
  constructor
  · exact (debit_wallet_spec seededState 1 2000 "s" none none seededLedgerWallet
      (by decide)).1 (by decide)
  · exact (debit_wallet_spec seededState 1 60 "s" none none seededLedgerWallet
      (by decide)).2 (by decide) (by decide) (by decide)

/-- C6.  An external transfer must cover its amount plus the fixed 50 fee:
below that the service aborts with the insufficient-balance error before any
external call; with cover and a resolving destination, a gateway rejection
aborts with no write, and a gateway acceptance commits a debit of exactly
`amount + 50` to the balance while appending exactly one completed debit entry
recording `amount` with fee 50 in its metadata. -/
theorem external_transfer_fee_spec (st : SysState) (uid : Nat) (amount : Int)
    (acct : String) (bank : Option String) (u : String) (desc : Option String)
    (w : Wallet) (hw : findWallet st uid = some w) :
    (∀ bankOk gwOk, w.balance < amount + 50 →
        initiateExternalTransfer st uid amount acct bank u desc bankOk gwOk =
          .error .insufficientBalance)
    ∧ (¬ w.balance < amount + 50 → hasRef w ("EXT-TRANSFER-" ++ u) = false →
        initiateExternalTransfer st uid amount acct bank u desc true false =
          .error .transferInitiationFailed)
    ∧ (¬ w.balance < amount + 50 → hasRef w ("EXT-TRANSFER-" ++ u) = false →
        refInOther st uid ("EXT-TRANSFER-" ++ u) = false →
        ∃ w2 tx, initiateExternalTransfer st uid amount acct bank u desc true true =
            .ok (updateWallet st w2, w2, tx)
          ∧ w2.balance = w.balance - (amount + 50)
          ∧ w2.ledger = w.ledger ++ [tx]
          ∧ tx.type = EntryType.debit ∧ tx.amount = amount ∧ tx.transferFee = 50
          ∧ tx.status = EntryStatus.completed) := by
  refine ⟨?_, ?_, ?_⟩
  · intro bankOk gwOk hlt
    unfold initiateExternalTransfer
    rw [hw]
    simp [hlt]
  · intro hge hdup
    unfold initiateExternalTransfer
    rw [hw]
    simp [hge, hdup]
  · intro hge hdup hother
    refine ⟨{ w with balance := w.balance - (amount + 50),
                     ledger := w.ledger ++
                       [{ type := .debit, amount := amount,
                          reference := "EXT-TRANSFER-" ++ u,
                          status := .completed, source := "external_transfer",
                          target := some acct, targetBank := bank, description := desc,
                          createdBy := uid, transferFee := 50 }] },
            { type := .debit, amount := amount, reference := "EXT-TRANSFER-" ++ u,
              status := .completed, source := "external_transfer",
              target := some acct, targetBank := bank, description := desc,
              createdBy := uid, transferFee := 50 }, ?_, rfl, rfl, rfl, rfl, rfl, rfl⟩
    unfold initiateExternalTransfer
    rw [hw]
    simp [hge, hdup, hother]

/-- Witness for `external_transfer_fee_spec`, the scenario of the claim: a
1000 payout from balance 1040 is rejected as insufficient, and from balance
1050 it commits leaving balance 0 with one debit entry of amount 1000 and fee
metadata 50. -/
theorem external_transfer_fee_spec_witness :
    (initiateExternalTransfer state1040 1 1000 "0011223344" none "4fa2" none true true =
      .error .insufficientBalance) ∧
    ∃ w2 tx, initiateExternalTransfer state1050 1 1000 "0011223344" none "4fa2" none true true =
        .ok (updateWallet state1050 w2, w2, tx)
      ∧ w2.balance = 0 ∧ w2.ledger = wallet1050.ledger ++ [tx]
      ∧ tx.type = EntryType.debit ∧ tx.amount = 1000 ∧ tx.transferFee = 50
      ∧ tx.status = EntryStatus.completed := by
  constructor
  · exact (external_transfer_fee_spec state1040 1 1000 "0011223344" none "4fa2" none
      wallet1040 (by decide)).1 true true (by decide)
  · obtain ⟨w2, tx, heq, hbal, hledger, hrest⟩ :=
      (external_transfer_fee_spec state1050 1 1000 "0011223344" none "4fa2" none
        wallet1050 (by decide)).2.2 (by decide) (by decide) (by decide)
    exact ⟨w2, tx, heq, by rw [hbal]; decide, hledger, hrest⟩

/-! Lemmas relating `find?` and `updateWallet`, and inversion principles
extracting from a committed service call the checks it passed and the state
it wrote. -/

theorem find?_map_comm {α : Type} (f : α → α) (p : α → Bool) (l : List α)
    (hp : ∀ x, p (f x) = p x) : (l.map f).find? p = (l.find? p).map f := by
  induction l with
  | nil => rfl
  | cons a t ih =>
    by_cases ha : p a = true
    · rw [List.map_cons, List.find?_cons_of_pos _ (by rw [hp]; exact ha),
        List.find?_cons_of_pos _ ha, Option.map_some']
    · rw [List.map_cons, List.find?_cons_of_neg _ (by rw [hp]; exact ha),
        List.find?_cons_of_neg _ ha, ih]

theorem findWallet_updateWallet (st : SysState) (w' : Wallet) (uid : Nat) :
    findWallet (updateWallet st w') uid =
      (findWallet st uid).map (fun x => if x.userId == w'.userId then w' else x) := by
  unfold findWallet updateWallet
  refine find?_map_comm _ _ _ (fun x => ?_)
  by_cases hb : (x.userId == w'.userId) = true
  · have hx : x.userId = w'.userId := by simpa using hb
    simp [hb, hx]
  · simp [hb]

theorem creditWallet_ok {st : SysState} {uid : Nat} {amount : Int} {ref source : String}
    {desc fwId sAcct sBank : Option String} {st' : SysState} {w' : Wallet} {tx : LedgerEntry}
    (h : creditWallet st uid amount ref source desc fwId sAcct sBank = .ok (st', w', tx)) :
    ∃ w, findWallet st uid = some w ∧ hasRef w ref = false ∧ refInOther st uid ref = false ∧
      tx = { type := .credit, amount := amount, reference := ref, status := .completed,
             source := source, description := desc, createdBy := uid,
             flutterwaveTxId := fwId, target := sAcct, targetBank := sBank } ∧
      w' = { w with balance := w.balance + amount, ledger := w.ledger ++ [tx] } ∧
      st' = updateWallet st w' := by
  unfold creditWallet at h
  cases hfw : findWallet st uid with
  | none => rw [hfw] at h; simp at h
  | some w =>
    rw [hfw] at h
    dsimp only at h
    by_cases hdup : hasRef w ref = true
    · rw [if_pos hdup] at h; simp at h
    · rw [if_neg hdup] at h
      by_cases hother : refInOther st uid ref = true
      · rw [if_pos hother] at h; simp at h
      · rw [if_neg hother] at h
        simp only [Except.ok.injEq, Prod.mk.injEq] at h
        obtain ⟨h1, h2, h3⟩ := h
        subst h3; subst h2; subst h1
        exact ⟨w, rfl, by simpa using hdup, by simpa using hother, rfl, rfl, rfl⟩

theorem debitWallet_ok {st : SysState} {uid : Nat} {amount : Int} {ref : String}
    {target desc : Option String} {st' : SysState} {w' : Wallet} {tx : LedgerEntry}
    (h : debitWallet st uid amount ref target desc = .ok (st', w', tx)) :
    ∃ w, findWallet st uid = some w ∧ ¬ w.balance < amount ∧ hasRef w ref = false ∧
      refInOther st uid ref = false ∧
      tx = { type := .debit, amount := amount, reference := ref, status := .completed,
             source := "transfer", target := target, description := desc,
             createdBy := uid } ∧
      w' = { w with balance := w.balance - amount, ledger := w.ledger ++ [tx] } ∧
      st' = updateWallet st w' := by
  unfold debitWallet at h
  cases hfw : findWallet st uid with
  | none => rw [hfw] at h; simp at h
  | some w =>
    rw [hfw] at h
    dsimp only at h
    by_cases hlt : w.balance < amount
    · rw [if_pos hlt] at h; simp at h
    · rw [if_neg hlt] at h
      by_cases hdup : hasRef w ref = true
      · rw [if_pos hdup] at h; simp at h
      · rw [if_neg hdup] at h
        by_cases hother : refInOther st uid ref = true
        · rw [if_pos hother] at h; simp at h
        · rw [if_neg hother] at h
          simp only [Except.ok.injEq, Prod.mk.injEq] at h
          obtain ⟨h1, h2, h3⟩ := h
          subst h3; subst h2; subst h1
          exact ⟨w, rfl, hlt, by simpa using hdup, by simpa using hother, rfl, rfl, rfl⟩

theorem initiateExternalTransfer_ok {st : SysState} {uid : Nat} {amount : Int}
    {acct : String} {bank : Option String} {u : String} {desc : Option String}
    {bankOk gwOk : Bool} {st' : SysState} {w' : Wallet} {tx : LedgerEntry}
    (h : initiateExternalTransfer st uid amount acct bank u desc bankOk gwOk =
      .ok (st', w', tx)) :
    ∃ w, findWallet st uid = some w ∧ ¬ w.balance < amount + 50 ∧
      hasRef w ("EXT-TRANSFER-" ++ u) = false ∧
      refInOther st uid ("EXT-TRANSFER-" ++ u) = false ∧
      tx = { type := .debit, amount := amount, reference := "EXT-TRANSFER-" ++ u,
             status := .completed, source := "external_transfer", target := some acct,
             targetBank := bank, description := desc, createdBy := uid,
             transferFee := 50 } ∧
      w' = { w with balance := w.balance - (amount + 50), ledger := w.ledger ++ [tx] } ∧
      st' = updateWallet st w' := by
  unfold initiateExternalTransfer at h
  cases hfw : findWallet st uid with
  | none => rw [hfw] at h; simp at h
  | some w =>
    rw [hfw] at h
    dsimp only at h
    by_cases hlt : w.balance < amount + 50
    · rw [if_pos hlt] at h; simp at h
    · rw [if_neg hlt] at h
      cases bankOk with
      | false => simp at h
      | true =>
        rw [if_neg (by simp)] at h
        by_cases hdup : hasRef w ("EXT-TRANSFER-" ++ u) = true
        · rw [if_pos hdup] at h; simp at h
        · rw [if_neg hdup] at h
          cases gwOk with
          | false => simp at h
          | true =>
            rw [if_neg (by simp)] at h
            by_cases hother : refInOther st uid ("EXT-TRANSFER-" ++ u) = true
            · rw [if_pos hother] at h; simp at h
            · rw [if_neg hother] at h
              simp only [Except.ok.injEq, Prod.mk.injEq] at h
              obtain ⟨h1, h2, h3⟩ := h
              subst h3; subst h2; subst h1
              exact ⟨w, rfl, hlt, by simpa using hdup, by simpa using hother,
                rfl, rfl, rfl⟩

theorem transferFunds_ok {st : SysState} {sid : Nat} {acct : String} {amount : Int}
    {u1 u2 : String} {desc : Option String} {st' : SysState} {sTx rTx : LedgerEntry}
    (h : transferFunds st sid acct amount u1 u2 desc = .ok (st', sTx, rTx)) :
    ∃ sw ru rw, findWallet st sid = some sw ∧ ¬ sw.balance < amount ∧
      findUserByAccount st acct = some ru ∧ findWallet st ru.userId = some rw ∧
      hasRef sw ("TRANSFER-SENDER-" ++ u1) = false ∧
      hasRef rw ("TRANSFER-RECIPIENT-" ++ u2) = false ∧
      refInOther st sid ("TRANSFER-SENDER-" ++ u1) = false ∧
      sTx = { type := .debit, amount := amount, reference := "TRANSFER-SENDER-" ++ u1,
              status := .completed, source := "transfer", target := some ru.accountNumber,
              targetBank := some (ru.bankName.getD "NEG AI Bank"), description := desc,
              createdBy := sid } ∧
      rTx = { type := .credit, amount := amount, reference := "TRANSFER-RECIPIENT-" ++ u2,
              status := .completed, source := "transfer", target := none,
              targetBank := some "NEG AI Bank",
              description := some ("Received from " ++ sw.accountNumber),
              createdBy := sid } ∧
      refInOther (updateWallet st { sw with balance := sw.balance - amount,
                                             ledger := sw.ledger ++ [sTx] })
        ru.userId ("TRANSFER-RECIPIENT-" ++ u2) = false ∧
      st' = updateWallet
        (updateWallet st { sw with balance := sw.balance - amount,
                                   ledger := sw.ledger ++ [sTx] })
        { rw with balance := rw.balance + amount, ledger := rw.ledger ++ [rTx] } := by
  unfold transferFunds at h
  cases hsw : findWallet st sid with
  | none => rw [hsw] at h; simp at h
  | some sw =>
    rw [hsw] at h
    dsimp only at h
    by_cases hlt : sw.balance < amount
    · rw [if_pos hlt] at h; simp at h
    · rw [if_neg hlt] at h
      cases hru : findUserByAccount st acct with
      | none => rw [hru] at h; simp at h
      | some ru =>
        rw [hru] at h
        dsimp only at h
        cases hrw : findWallet st ru.userId with
        | none => rw [hrw] at h; simp at h
        | some rw2 =>
          rw [hrw] at h
          dsimp only at h
          by_cases hdup : (hasRef sw ("TRANSFER-SENDER-" ++ u1) ||
              hasRef rw2 ("TRANSFER-RECIPIENT-" ++ u2)) = true
          · rw [if_pos hdup] at h; simp at h
          · rw [if_neg hdup] at h
            by_cases hother1 : refInOther st sid ("TRANSFER-SENDER-" ++ u1) = true
            · rw [if_pos hother1] at h; simp at h
            · rw [if_neg hother1] at h
              rw [Bool.or_eq_true, not_or] at hdup
              obtain ⟨hdup1, hdup2⟩ := hdup
              by_cases hother2 : refInOther
                  (updateWallet st
                    { sw with
                        balance := sw.balance - amount,
                        ledger := sw.ledger ++
                          [{ type := .debit, amount := amount,
                             reference := "TRANSFER-SENDER-" ++ u1,
                             status := .completed, source := "transfer",
                             target := some ru.accountNumber,
                             targetBank := some (ru.bankName.getD "NEG AI Bank"),
                             description := desc, createdBy := sid }] })
                  ru.userId ("TRANSFER-RECIPIENT-" ++ u2) = true
              · rw [if_pos hother2] at h; simp at h
              · rw [if_neg hother2] at h
                simp only [Except.ok.injEq, Prod.mk.injEq] at h
                obtain ⟨h1, h2, h3⟩ := h
                subst h3; subst h2; subst h1
                exact ⟨sw, ru, rw2, rfl, hlt, rfl, hrw, by simpa using hdup1,
                  by simpa using hdup2, by simpa using hother1,
                  rfl, rfl, by simpa using hother2, rfl⟩

/-- C3 counterexample.  Verifying the same `(transactionId, reference)` twice
from an empty wallet: the first call credits and answers 200 with the new
balance, but the second call is a hard 409 conflict carrying no balance — not
the success-shaped, balance-reporting reply the claim describes. -/
theorem verify_payment_second_call_conflicts :
    (verifyPayment baseState 1 "9451993" "FUND-B" (some verifiedPayment)).1.httpStatus = 200 ∧
    (verifyPayment baseState 1 "9451993" "FUND-B" (some verifiedPayment)).1.balance = some 500 ∧
    (verifyPayment (verifyPayment baseState 1 "9451993" "FUND-B" (some verifiedPayment)).2
        1 "9451993" "FUND-B" (some verifiedPayment)).1.httpStatus = 409 ∧
    (verifyPayment (verifyPayment baseState 1 "9451993" "FUND-B" (some verifiedPayment)).2
        1 "9451993" "FUND-B" (some verifiedPayment)).1.balance = none := by
  refine ⟨rfl, rfl, rfl, rfl⟩

/-- C3 as amended.  Once a verification call has succeeded (HTTP 200, wallet
credited), repeating it with the same reference is an idempotent no-op on the
ledger but a hard 409 `Transaction already processed` answer that reports no
balance: the wallet is credited exactly once, while the duplicate call is
conflict-shaped, not success-shaped. -/
theorem verify_payment_credits_once (st : SysState) (uid : Nat) (tid ref : String)
    (gw : Option GatewayVerification) (r1 : VerifyPaymentResult) (st1 : SysState)
    (hcall : verifyPayment st uid tid ref gw = (r1, st1))
    (hok : r1.httpStatus = 200) :
    verifyPayment st1 uid tid ref gw =
      ({ httpStatus := 409, message := "Transaction already processed",
         balance := none }, st1) := by
  unfold verifyPayment at hcall
  cases hfw : findWallet st uid with
  | none =>
    rw [hfw] at hcall
    simp only [Prod.mk.injEq] at hcall
    rw [← hcall.1] at hok
    simp at hok
  | some w =>
    rw [hfw] at hcall
    dsimp only at hcall
    by_cases hdup : hasRef w ref = true
    · rw [if_pos hdup] at hcall
      simp only [Prod.mk.injEq] at hcall
      rw [← hcall.1] at hok
      simp at hok
    · rw [if_neg hdup] at hcall
      cases gw with
      | none =>
        simp only [Prod.mk.injEq] at hcall
        rw [← hcall.1] at hok
        simp at hok
      | some v =>
        dsimp only at hcall
        by_cases hstat : (v.status != "success") = true
        · rw [if_pos hstat] at hcall
          simp only [Prod.mk.injEq] at hcall
          rw [← hcall.1] at hok
          simp at hok
        · rw [if_neg hstat] at hcall
          by_cases hamt : v.amount > 1000000
          · rw [if_pos hamt] at hcall
            simp only [Prod.mk.injEq] at hcall
            rw [← hcall.1] at hok
            simp at hok
          · rw [if_neg hamt] at hcall
            cases hcw : creditWallet st uid v.amount ref "flutterwave"
                (some "Wallet funding via Flutterwave") (some tid) none none with
            | error e =>
              rw [hcw] at hcall
              simp only [Prod.mk.injEq] at hcall
              rw [← hcall.1] at hok
              simp at hok
            | ok res =>
              obtain ⟨st2, w2, tx⟩ := res
              rw [hcw] at hcall
              dsimp only at hcall
              simp only [Prod.mk.injEq] at hcall
              obtain ⟨hr, hs⟩ := hcall
              obtain ⟨w0, hfw0, hdup0, hother0, htx, hw2, hst2⟩ := creditWallet_ok hcw
              have hww : w0 = w := by
                rw [hfw0] at hfw
                exact Option.some.inj hfw
              subst hww
              have hfind1 : findWallet st1 uid = some w2 := by
                rw [← hs, hst2, findWallet_updateWallet, hfw0]
                have hbeq : (w0.userId == w2.userId) = true := by
                  rw [hw2]; simp
                simp only [Option.map_some']
                rw [if_pos hbeq]
              have hasref2 : hasRef w2 ref = true := by
                rw [hw2]
                unfold hasRef
                rw [List.any_append]
                have hrefeq : (tx.reference == ref) = true := by
                  rw [htx]; simp
                simp [List.any_cons, hrefeq]
              unfold verifyPayment
              rw [hfind1]
              dsimp only
              rw [if_pos hasref2]

/-- Witness for `verify_payment_credits_once`: the concrete double
verification of the counterexample state, driven through the theorem. -/
theorem verify_payment_credits_once_witness :
    verifyPayment (verifyPayment baseState 1 "9451993" "FUND-B" (some verifiedPayment)).2
        1 "9451993" "FUND-B" (some verifiedPayment) =
      ({ httpStatus := 409, message := "Transaction already processed", balance := none },
       (verifyPayment baseState 1 "9451993" "FUND-B" (some verifiedPayment)).2) :=
  verify_payment_credits_once baseState 1 "9451993" "FUND-B" (some verifiedPayment)
    (verifyPayment baseState 1 "9451993" "FUND-B" (some verifiedPayment)).1
    (verifyPayment baseState 1 "9451993" "FUND-B" (some verifiedPayment)).2
    rfl rfl

theorem webhook_always_ack (st : SysState) (p : RawWebhookBody)
    (gw : Option GatewayVerification) :
    (handleFlutterwaveWebhook st p gw).1.httpStatus = 200 ∧
    (handleFlutterwaveWebhook st p gw).1.bodyStatus = "received" := by
  obtain ⟨i, r, s⟩ := p
  cases i <;> cases r <;> cases s <;>
    simp only [handleFlutterwaveWebhook] <;>
    (repeat' split) <;> simp

/-- C7 counterexample.  A webhook delivery whose body is missing `txRef` is
answered 400 by the mounted `validateRequest(webhookSchema)` middleware before
the always-acknowledging handler can run, so the endpoint does surface a 4xx
to the gateway for that input. -/
theorem webhook_invalid_payload_gets_400 :
    (webhookRoute baseState
      { id := some "9451993", txRef := none, status := some "successful" }
      (some verifiedPayment)).1.httpStatus = 400 := rfl

/-- C7 as amended.  For every webhook request whose body passes the mounted
schema validation, the endpoint answers HTTP 200 with a
`{ status: "received" }` body whatever the internal outcome — non-successful
event, gateway verification throwing or failing, unknown user, missing
wallet, duplicate reference, ceiling breach, credit failure — while a body
failing validation is rejected 400 by the middleware before the handler. -/
theorem webhook_acknowledged_after_validation (st : SysState) (b : RawWebhookBody)
    (gw : Option GatewayVerification) (p : RawWebhookBody)
    (hv : validateWebhookBody b = .ok p) :
    (webhookRoute st b gw).1.httpStatus = 200 ∧
    (webhookRoute st b gw).1.bodyStatus = "received" := by
  unfold webhookRoute
  rw [hv]
  exact webhook_always_ack st p gw

/-- Witness for `webhook_acknowledged_after_validation`: a well-formed
delivery for an unknown reference is acknowledged with 200 `received`. -/
theorem webhook_acknowledged_after_validation_witness :
    (webhookRoute baseState
      { id := some "9451993", txRef := some "FUND-C", status := some "successful" }
      (some verifiedPayment)).1.httpStatus = 200 ∧
    (webhookRoute baseState
      { id := some "9451993", txRef := some "FUND-C", status := some "successful" }
      (some verifiedPayment)).1.bodyStatus = "received" :=
  webhook_acknowledged_after_validation baseState
    { id := some "9451993", txRef := some "FUND-C", status := some "successful" }
    (some verifiedPayment)
    { id := some "9451993", txRef := some "FUND-C", status := some "successful" }
    rfl

/-- C5.  A committed internal transfer conserves money: the sender's wallet
loses exactly the amount, the recipient's wallet gains exactly the amount,
and every other wallet is untouched.  The all-or-nothing half is the shape of
the embedding itself: the service runs inside one MongoDB session, so a
failure at any step — insufficient funds, missing wallet, duplicate — aborts
the transaction and is rendered as an `error` result carrying no state.  The
recipient-differs-from-sender hypothesis is supplied by the controller, which
rejects self transfers before the service runs. -/
theorem transfer_conservation (st : SysState) (sid : Nat) (acct : String) (amount : Int)
    (u1 u2 : String) (desc : Option String) (st' : SysState) (sTx rTx : LedgerEntry)
    (sw : Wallet) (ru : UserRec) (rw : Wallet)
    (hsw : findWallet st sid = some sw)
    (hru : findUserByAccount st acct = some ru)
    (hrw : findWallet st ru.userId = some rw)
    (hne : ru.userId ≠ sid)
    (h : transferFunds st sid acct amount u1 u2 desc = .ok (st', sTx, rTx)) :
    (∃ sw2, findWallet st' sid = some sw2 ∧ sw2.balance = sw.balance - amount) ∧
    (∃ rw2, findWallet st' ru.userId = some rw2 ∧ rw2.balance = rw.balance + amount) ∧
    ∀ uid, uid ≠ sid → uid ≠ ru.userId → findWallet st' uid = findWallet st uid := by
  obtain ⟨sw0, ru0, rw0, hsw0, hlt, hru0, hrw0, hd1, hd2, ho1, hsTx, hrTx, ho2, hst'⟩ :=
    transferFunds_ok h
  rw [hsw0] at hsw
  obtain rfl := Option.some.inj hsw
  rw [hru0] at hru
  obtain rfl := Option.some.inj hru
  rw [hrw0] at hrw
  obtain rfl := Option.some.inj hrw
  subst hst'
  have hsid : sw0.userId = sid := findWallet_userId hsw0
  have hrid : rw0.userId = ru0.userId := findWallet_userId hrw0
  have hb1 : sw0.userId ≠ rw0.userId := by
    rw [hsid, hrid]
    exact Ne.symm hne
  have hb2 : rw0.userId ≠ sw0.userId := fun hh => hb1 hh.symm
  refine ⟨?_, ?_, ?_⟩
  · refine ⟨{ sw0 with balance := sw0.balance - amount, ledger := sw0.ledger ++ [sTx] },
      ?_, rfl⟩
    rw [findWallet_updateWallet, findWallet_updateWallet, hsw0]
    simp [hb1]
  · refine ⟨{ rw0 with balance := rw0.balance + amount, ledger := rw0.ledger ++ [rTx] },
      ?_, rfl⟩
    rw [findWallet_updateWallet, findWallet_updateWallet, hrw0]
    simp [hb2]
  · intro uid hu1 hu2
    rw [findWallet_updateWallet, findWallet_updateWallet]
    cases hx : findWallet st uid with
    | none => rfl
    | some x =>
      have hxid : x.userId = uid := findWallet_userId hx
      have hbx1 : x.userId ≠ sw0.userId := by rw [hxid, hsid]; exact hu1
      have hbx2 : x.userId ≠ rw0.userId := by rw [hxid, hrid]; exact hu2
      simp [hbx1, hbx2]

/-- Witness for `transfer_conservation`: a 5000 transfer between the two test
wallets moves exactly 5000 from balance 10000 to balance 0. -/
theorem transfer_conservation_witness :
    ∃ st2 sTx rTx,
      transferFunds fundedState 1 "7042449381" 5000 "aa" "bb" none = .ok (st2, sTx, rTx) ∧
      (∃ sw2, findWallet st2 1 = some sw2 ∧ sw2.balance = 10000 - 5000) ∧
      (∃ rw2, findWallet st2 2 = some rw2 ∧ rw2.balance = 0 + 5000) := by
  obtain ⟨st2, sTx, rTx, hE⟩ : ∃ st2 sTx rTx,
      transferFunds fundedState 1 "7042449381" 5000 "aa" "bb" none = .ok (st2, sTx, rTx) :=
    ⟨_, _, _, rfl⟩
  have hc := transfer_conservation fundedState 1 "7042449381" 5000 "aa" "bb" none
    st2 sTx rTx _ _ _ rfl rfl rfl (by decide) hE
  exact ⟨st2, sTx, rTx, hE, hc.1, hc.2.1⟩

/-! Machinery for the balance identity: how each committed operation moves the
three ledger sums. -/

theorem sum_filter_map_append (p : LedgerEntry → Bool) (f : LedgerEntry → Int)
    (l : List LedgerEntry) (e : LedgerEntry) :
    (((l ++ [e]).filter p).map f).sum =
      ((l.filter p).map f).sum + (if p e then f e else 0) := by
  rw [List.filter_append]
  cases hc : p e with
  | true => simp [hc]
  | false => simp [hc]

theorem completedCredits_append (l : List LedgerEntry) (e : LedgerEntry) :
    completedCredits (l ++ [e]) = completedCredits l +
      (if e.type == EntryType.credit && e.status == EntryStatus.completed
       then e.amount else 0) := by
  unfold completedCredits
  exact sum_filter_map_append _ _ l e

theorem completedDebits_append (l : List LedgerEntry) (e : LedgerEntry) :
    completedDebits (l ++ [e]) = completedDebits l +
      (if e.type == EntryType.debit && e.status == EntryStatus.completed
       then e.amount else 0) := by
  unfold completedDebits
  exact sum_filter_map_append _ _ l e

theorem completedDebitFees_append (l : List LedgerEntry) (e : LedgerEntry) :
    completedDebitFees (l ++ [e]) = completedDebitFees l +
      (if e.type == EntryType.debit && e.status == EntryStatus.completed
       then e.transferFee else 0) := by
  unfold completedDebitFees
  exact sum_filter_map_append _ _ l e

theorem balanced_push_credit (w : Wallet) (tx : LedgerEntry)
    (h : walletBalancedWithFees w) (ht : tx.type = EntryType.credit)
    (hs : tx.status = EntryStatus.completed) :
    walletBalancedWithFees
      { w with balance := w.balance + tx.amount, ledger := w.ledger ++ [tx] } := by
  unfold walletBalancedWithFees at h ⊢
  dsimp only
  rw [completedCredits_append, completedDebits_append, completedDebitFees_append, ht, hs]
  simp
  omega

theorem balanced_push_debit (w : Wallet) (tx : LedgerEntry)
    (h : walletBalancedWithFees w) (ht : tx.type = EntryType.debit)
    (hs : tx.status = EntryStatus.completed) :
    walletBalancedWithFees
      { w with balance := w.balance - (tx.amount + tx.transferFee),
               ledger := w.ledger ++ [tx] } := by
  unfold walletBalancedWithFees at h ⊢
  dsimp only
  rw [completedCredits_append, completedDebits_append, completedDebitFees_append, ht, hs]
  simp
  omega

theorem stateBalanced_update (st : SysState) (w' : Wallet)
    (h : stateBalancedWithFees st) (hw : walletBalancedWithFees w') :
    stateBalancedWithFees (updateWallet st w') := by
  intro x hx
  unfold updateWallet at hx
  dsimp only at hx
  simp only [List.mem_map] at hx
  obtain ⟨y, hy, rfl⟩ := hx
  by_cases hb : (y.userId == w'.userId) = true
  · rw [if_pos hb]; exact hw
  · rw [if_neg hb]; exact h y hy

theorem applyOp_balanced (st : SysState) (op : WalletOp)
    (h : stateBalancedWithFees st) : stateBalancedWithFees (applyOp st op) := by
  cases op with
  | credit uid amount ref source desc fwId sAcct sBank =>
    unfold applyOp
    cases hc : creditWallet st uid amount ref source desc fwId sAcct sBank with
    | error e => simp only [hc]; exact h
    | ok res =>
      obtain ⟨st2, w2, tx⟩ := res
      simp only [hc]
      obtain ⟨w, hfw, hdup, hother, htx, hw2, hst2⟩ := creditWallet_ok hc
      subst hst2
      apply stateBalanced_update _ _ h
      have hamt : tx.amount = amount := by rw [htx]
      rw [hw2, ← hamt]
      exact balanced_push_credit w tx (h w (findWallet_mem hfw))
        (by rw [htx]) (by rw [htx])
  | debit uid amount ref target desc =>
    unfold applyOp
    cases hc : debitWallet st uid amount ref target desc with
    | error e => simp only [hc]; exact h
    | ok res =>
      obtain ⟨st2, w2, tx⟩ := res
      simp only [hc]
      obtain ⟨w, hfw, hlt, hdup, hother, htx, hw2, hst2⟩ := debitWallet_ok hc
      subst hst2
      apply stateBalanced_update _ _ h
      have hamt : amount = tx.amount + tx.transferFee := by rw [htx]; simp
      rw [hw2, hamt]
      exact balanced_push_debit w tx (h w (findWallet_mem hfw))
        (by rw [htx]) (by rw [htx])
  | transfer sid acct amount u1 u2 desc =>
    unfold applyOp
    cases hc : transferFunds st sid acct amount u1 u2 desc with
    | error e => simp only [hc]; exact h
    | ok res =>
      obtain ⟨st2, sTx, rTx⟩ := res
      simp only [hc]
      obtain ⟨sw, ru, rw2, hsw, hlt, hru, hrw, hd1, hd2, ho1, hsTx, hrTx, ho2, hst2⟩ :=
        transferFunds_ok hc
      subst hst2
      apply stateBalanced_update
      · apply stateBalanced_update _ _ h
        have hamt : amount = sTx.amount + sTx.transferFee := by rw [hsTx]; simp
        rw [hamt]
        exact balanced_push_debit sw sTx (h sw (findWallet_mem hsw))
          (by rw [hsTx]) (by rw [hsTx])
      · have hamt : amount = rTx.amount := by rw [hrTx]
        rw [hamt]
        exact balanced_push_credit rw2 rTx (h rw2 (findWallet_mem hrw))
          (by rw [hrTx]) (by rw [hrTx])
  | extTransfer uid amount acct bank u desc bankOk gwOk =>
    unfold applyOp
    cases hc : initiateExternalTransfer st uid amount acct bank u desc bankOk gwOk with
    | error e => simp only [hc]; exact h
    | ok res =>
      obtain ⟨st2, w2, tx⟩ := res
      simp only [hc]
      obtain ⟨w, hfw, hlt, hdup, hother, htx, hw2, hst2⟩ := initiateExternalTransfer_ok hc
      subst hst2
      apply stateBalanced_update _ _ h
      have hamt : amount + 50 = tx.amount + tx.transferFee := by rw [htx]
      rw [hw2, hamt]
      exact balanced_push_debit w tx (h w (findWallet_mem hfw))
        (by rw [htx]) (by rw [htx])

/-- C1 counterexample.  Starting from empty wallets — where the spec's
invariant `balance = completed credits - completed debits` holds — a verified
funding of 1050 followed by an external payout of 1000 leaves balance 0 while
completed credits minus completed debits is 50: the 50 fee is debited from the
balance but recorded only as metadata, never as an entry amount, so the
invariant as claimed fails on the external-transfer path. -/
theorem balance_invariant_without_fees_fails :
    (∀ w ∈ baseState.wallets, walletBalanced w) ∧
    ¬ (∀ w ∈ (applyOps baseState fundThenPayout).wallets, walletBalanced w) := by
  constructor
  · decide
  · decide

/-- C1 as amended.  After any sequence of completed operations, every wallet's
balance equals its completed credits minus its completed debits minus the
transfer fees recorded in the metadata of its completed debit entries. -/
theorem ledger_balance_invariant (ops : List WalletOp) (st : SysState)
    (h : stateBalancedWithFees st) : stateBalancedWithFees (applyOps st ops) := by
  induction ops generalizing st with
  | nil => exact h
  | cons op ops ih => exact ih (applyOp st op) (applyOp_balanced st op h)

/-- Witness for `ledger_balance_invariant`: the funding-then-payout sequence
keeps the fee-aware identity on the concrete test state. -/
theorem ledger_balance_invariant_witness :
    stateBalancedWithFees baseState ∧
    stateBalancedWithFees (applyOps baseState fundThenPayout) :=
  ⟨by decide, ledger_balance_invariant fundThenPayout baseState (by decide)⟩

/-! Machinery for the global uniqueness of ledger references: decomposing the
wallet list at the written document and replacing its reference block. -/

theorem find?_decomp {l : List Wallet} {uid : Nat} {w : Wallet}
    (h : l.find? (fun x => x.userId == uid) = some w) :
    ∃ l1 l2, l = l1 ++ w :: l2 ∧ ∀ x ∈ l1, x.userId ≠ uid := by
  induction l with
  | nil => simp at h
  | cons a t ih =>
    by_cases ha : (a.userId == uid) = true
    · rw [List.find?_cons, ha] at h
      obtain rfl := Option.some.inj h
      exact ⟨[], t, rfl, by simp⟩
    · have ha2 : (a.userId == uid) = false := by simpa using ha
      rw [List.find?_cons, ha2] at h
      obtain ⟨l1, l2, rfl, hl1⟩ := ih h
      refine ⟨a :: l1, l2, rfl, ?_⟩
      intro x hx
      rcases List.mem_cons.1 hx with rfl | hx2
      · simpa using ha
      · exact hl1 x hx2

theorem ids_right_of_unique {l1 l2 : List Wallet} {w : Wallet} {uid : Nat}
    (hid : ((l1 ++ w :: l2).map (fun x => x.userId)).Nodup)
    (hw : w.userId = uid) : ∀ x ∈ l2, x.userId ≠ uid := by
  rw [List.map_append, List.nodup_append] at hid
  have h2 := hid.2.1
  rw [List.map_cons, List.nodup_cons] at h2
  intro x hx hxe
  apply h2.1
  rw [hw, ← hxe]
  exact List.mem_map_of_mem _ hx

theorem updateWallet_decomp {st : SysState} {l1 l2 : List Wallet} {w w' : Wallet} {uid : Nat}
    (hst : st.wallets = l1 ++ w :: l2) (hw : w.userId = uid) (hw' : w'.userId = uid)
    (h1 : ∀ x ∈ l1, x.userId ≠ uid) (h2 : ∀ x ∈ l2, x.userId ≠ uid) :
    (updateWallet st w').wallets = l1 ++ w' :: l2 := by
  unfold updateWallet
  dsimp only
  rw [hst, List.map_append, List.map_cons]
  have e1 : List.map (fun x => if x.userId == w'.userId then w' else x) l1 = l1 := by
    have hcon := List.map_congr_left (l := l1)
      (f := fun x => if x.userId == w'.userId then w' else x) (g := id)
      (fun x hx => by
        show (if (x.userId == w'.userId) = true then w' else x) = id x
        rw [if_neg]
        · rfl
        · rw [hw']
          exact fun hb => h1 x hx (by simpa using hb))
    rw [hcon, List.map_id]
  have e2 : List.map (fun x => if x.userId == w'.userId then w' else x) l2 = l2 := by
    have hcon := List.map_congr_left (l := l2)
      (f := fun x => if x.userId == w'.userId then w' else x) (g := id)
      (fun x hx => by
        show (if (x.userId == w'.userId) = true then w' else x) = id x
        rw [if_neg]
        · rfl
        · rw [hw']
          exact fun hb => h2 x hx (by simpa using hb))
    rw [hcon, List.map_id]
  rw [e1, e2, if_pos (by rw [hw, hw']; simp)]

theorem allRefs_decomp {st : SysState} {l1 l2 : List Wallet} {w : Wallet}
    (hst : st.wallets = l1 ++ w :: l2) :
    allRefs st = l1.flatMap walletRefs ++ (walletRefs w ++ l2.flatMap walletRefs) := by
  unfold allRefs
  rw [hst, List.flatMap_append, List.flatMap_cons]

theorem nodup_mid_replace {A W W' B : List String}
    (h : (A ++ (W ++ B)).Nodup) (hW' : W'.Nodup)
    (hA : ∀ r ∈ W', r ∉ A) (hB : ∀ r ∈ W', r ∉ B) :
    (A ++ (W' ++ B)).Nodup := by
  rw [List.nodup_append] at h
  obtain ⟨hA1, hWB, hdisj⟩ := h
  rw [List.nodup_append] at hWB
  obtain ⟨hW, hB1, hWBdisj⟩ := hWB
  rw [List.nodup_append]
  refine ⟨hA1, ?_, ?_⟩
  · rw [List.nodup_append]
    exact ⟨hW', hB1, fun r hr hrB => hB r hr hrB⟩
  · intro r hrA hrWB
    rcases List.mem_append.1 hrWB with hrW | hrB
    · exact hA r hrW hrA
    · exact hdisj hrA (List.mem_append.2 (Or.inr hrB))

theorem nodup_of_mem_flatMap {α β : Type} {f : α → List β} {l : List α} {x : α}
    (h : (l.flatMap f).Nodup) (hx : x ∈ l) : (f x).Nodup := by
  induction l with
  | nil => simp at hx
  | cons a t ih =>
    rw [List.flatMap_cons, List.nodup_append] at h
    rcases List.mem_cons.1 hx with rfl | hx2
    · exact h.1
    · exact ih h.2.1 hx2

theorem refInOther_false_spec {st : SysState} {uid : Nat} {ref : String}
    (h : refInOther st uid ref = false) :
    ∀ x ∈ st.wallets, x.userId ≠ uid → ref ∉ walletRefs x := by
  intro x hx hne hmem
  unfold refInOther at h
  rw [List.any_eq_false] at h
  apply h x hx
  rw [Bool.and_eq_true]
  refine ⟨bne_iff_ne.2 hne, ?_⟩
  unfold hasRef
  rw [List.any_eq_true]
  obtain ⟨e, he, hre⟩ := List.mem_map.1 hmem
  exact ⟨e, he, by rw [hre]; simp⟩

theorem hasRef_false_not_mem {w : Wallet} {ref : String} (h : hasRef w ref = false) :
    ref ∉ walletRefs w := by
  intro hmem
  unfold hasRef at h
  rw [List.any_eq_false] at h
  obtain ⟨e, he, hre⟩ := List.mem_map.1 hmem
  exact h e he (by rw [hre]; simp)

theorem mem_id_eq {st : SysState} {x y : Wallet} (hid : walletIdsUnique st)
    (hx : x ∈ st.wallets) (hy : y ∈ st.wallets) (hxy : x.userId = y.userId) : x = y :=
  List.inj_on_of_nodup_map hid hx hy hxy

theorem walletRefs_push (w : Wallet) (tx : LedgerEntry) (b : Int) :
    walletRefs { w with balance := b, ledger := w.ledger ++ [tx] } =
      walletRefs w ++ [tx.reference] := by
  unfold walletRefs
  simp

theorem updateWallet_ids (st : SysState) (w' : Wallet) :
    (updateWallet st w').wallets.map (fun x => x.userId) =
      st.wallets.map (fun x => x.userId) := by
  unfold updateWallet
  dsimp only
  rw [List.map_map]
  refine List.map_congr_left (fun x hx => ?_)
  by_cases hb : (x.userId == w'.userId) = true
  · simp only [Function.comp_apply]
    rw [if_pos hb]
    exact (by simpa using hb : x.userId = w'.userId).symm
  · simp only [Function.comp_apply]
    rw [if_neg hb]

theorem mem_updateWallet_of_ne {st : SysState} {w' x : Wallet}
    (hx : x ∈ st.wallets) (hne : x.userId ≠ w'.userId) :
    x ∈ (updateWallet st w').wallets := by
  unfold updateWallet
  dsimp only
  exact List.mem_map.2 ⟨x, hx, by simp [hne]⟩

theorem refsUnique_updateWallet_of (st : SysState) (uid : Nat) (w w' : Wallet)
    (hid : walletIdsUnique st) (hfind : findWallet st uid = some w)
    (huid' : w'.userId = uid) (hnd : (walletRefs w').Nodup)
    (hsub : ∀ r ∈ walletRefs w', r ∈ walletRefs w ∨ ∀ x ∈ st.wallets, r ∉ walletRefs x)
    (h : refsUnique st) : refsUnique (updateWallet st w') := by
  have huid : w.userId = uid := findWallet_userId hfind
  obtain ⟨l1, l2, hst, hl1⟩ := find?_decomp hfind
  have hl2 : ∀ x ∈ l2, x.userId ≠ uid :=
    ids_right_of_unique (by rw [← hst]; exact hid) huid
  have hup : (updateWallet st w').wallets = l1 ++ w' :: l2 :=
    updateWallet_decomp hst huid huid' hl1 hl2
  unfold refsUnique at h ⊢
  rw [allRefs_decomp hup]
  rw [allRefs_decomp hst] at h
  have hparts := List.nodup_append.1 h
  have hWB := List.nodup_append.1 hparts.2.1
  have hA : ∀ r ∈ walletRefs w', r ∉ l1.flatMap walletRefs := by
    intro r hr hrA
    rcases hsub r hr with hrw | hall
    · exact hparts.2.2 hrA (List.mem_append.2 (Or.inl hrw))
    · obtain ⟨x, hx, hrx⟩ := List.mem_flatMap.1 hrA
      exact hall x (by rw [hst]; exact List.mem_append.2 (Or.inl hx)) hrx
  have hB : ∀ r ∈ walletRefs w', r ∉ l2.flatMap walletRefs := by
    intro r hr hrB
    rcases hsub r hr with hrw | hall
    · exact hWB.2.2 hrw hrB
    · obtain ⟨x, hx, hrx⟩ := List.mem_flatMap.1 hrB
      exact hall x
        (by rw [hst]; exact List.mem_append.2 (Or.inr (List.mem_cons_of_mem _ hx))) hrx
  exact nodup_mid_replace h hnd hA hB

theorem refsUnique_push (st : SysState) (uid : Nat) (w : Wallet) (tx : LedgerEntry)
    (b : Int) (hid : walletIdsUnique st) (hfind : findWallet st uid = some w)
    (hdup : hasRef w tx.reference = false)
    (hother : refInOther st uid tx.reference = false)
    (h : refsUnique st) :
    refsUnique (updateWallet st { w with balance := b, ledger := w.ledger ++ [tx] }) := by
  have huid : w.userId = uid := findWallet_userId hfind
  refine refsUnique_updateWallet_of st uid w _ hid hfind huid ?_ ?_ h
  · rw [walletRefs_push]
    refine List.Nodup.append (nodup_of_mem_flatMap h (findWallet_mem hfind))
      (by simp) ?_
    intro a ha har
    rw [List.mem_singleton] at har
    subst har
    exact hasRef_false_not_mem hdup ha
  · intro r hr
    rw [walletRefs_push] at hr
    rcases List.mem_append.1 hr with hrw | hrr
    · exact Or.inl hrw
    · rw [List.mem_singleton] at hrr
      subst hrr
      right
      intro x hx hmem
      by_cases hxeq : x.userId = uid
      · have hxw : x = w := mem_id_eq hid hx (findWallet_mem hfind) (by rw [hxeq, huid])
        rw [hxw] at hmem
        exact hasRef_false_not_mem hdup hmem
      · exact refInOther_false_spec hother x hx hxeq hmem

theorem senderRef_ne_recipientRef (u1 u2 : String) :
    ("TRANSFER-RECIPIENT-" ++ u2) ≠ ("TRANSFER-SENDER-" ++ u1) := by
  intro hcontra
  have h2 := congrArg (fun s => s.data[9]?) hcontra
  simp only [String.data_append] at h2
  rw [List.getElem?_append_left (by decide), List.getElem?_append_left (by decide)] at h2
  revert h2
  decide

theorem applyOp_ids (st : SysState) (op : WalletOp) (hid : walletIdsUnique st) :
    walletIdsUnique (applyOp st op) := by
  cases op with
  | credit uid amount ref source desc fwId sAcct sBank =>
    unfold applyOp
    cases hc : creditWallet st uid amount ref source desc fwId sAcct sBank with
    | error e => simp only [hc]; exact hid
    | ok res =>
      obtain ⟨st2, w2, tx⟩ := res
      simp only [hc]
      obtain ⟨w, hfw, hdup, hother, htx, hw2, hst2⟩ := creditWallet_ok hc
      subst hst2
      unfold walletIdsUnique
      rw [updateWallet_ids]
      exact hid
  | debit uid amount ref target desc =>
    unfold applyOp
    cases hc : debitWallet st uid amount ref target desc with
    | error e => simp only [hc]; exact hid
    | ok res =>
      obtain ⟨st2, w2, tx⟩ := res
      simp only [hc]
      obtain ⟨w, hfw, hlt, hdup, hother, htx, hw2, hst2⟩ := debitWallet_ok hc
      subst hst2
      unfold walletIdsUnique
      rw [updateWallet_ids]
      exact hid
  | transfer sid acct amount u1 u2 desc =>
    unfold applyOp
    cases hc : transferFunds st sid acct amount u1 u2 desc with
    | error e => simp only [hc]; exact hid
    | ok res =>
      obtain ⟨st2, sTx, rTx⟩ := res
      simp only [hc]
      obtain ⟨sw, ru, rw2, hsw, hlt, hru, hrw, hd1, hd2, ho1, hsTx, hrTx, ho2, hst2⟩ :=
        transferFunds_ok hc
      subst hst2
      unfold walletIdsUnique
      rw [updateWallet_ids, updateWallet_ids]
      exact hid
  | extTransfer uid amount acct bank u desc bankOk gwOk =>
    unfold applyOp
    cases hc : initiateExternalTransfer st uid amount acct bank u desc bankOk gwOk with
    | error e => simp only [hc]; exact hid
    | ok res =>
      obtain ⟨st2, w2, tx⟩ := res
      simp only [hc]
      obtain ⟨w, hfw, hlt, hdup, hother, htx, hw2, hst2⟩ := initiateExternalTransfer_ok hc
      subst hst2
      unfold walletIdsUnique
      rw [updateWallet_ids]
      exact hid

theorem applyOp_refsUnique (st : SysState) (op : WalletOp)
    (hid : walletIdsUnique st) (h : refsUnique st) : refsUnique (applyOp st op) := by
  cases op with
  | credit uid amount ref source desc fwId sAcct sBank =>
    unfold applyOp
    cases hc : creditWallet st uid amount ref source desc fwId sAcct sBank with
    | error e => simp only [hc]; exact h
    | ok res =>
      obtain ⟨st2, w2, tx⟩ := res
      simp only [hc]
      obtain ⟨w, hfw, hdup, hother, htx, hw2, hst2⟩ := creditWallet_ok hc
      subst hst2
      have href : tx.reference = ref := by rw [htx]
      rw [hw2]
      exact refsUnique_push st uid w tx _ hid hfw (by rw [href]; exact hdup)
        (by rw [href]; exact hother) h
  | debit uid amount ref target desc =>
    unfold applyOp
    cases hc : debitWallet st uid amount ref target desc with
    | error e => simp only [hc]; exact h
    | ok res =>
      obtain ⟨st2, w2, tx⟩ := res
      simp only [hc]
      obtain ⟨w, hfw, hlt, hdup, hother, htx, hw2, hst2⟩ := debitWallet_ok hc
      subst hst2
      have href : tx.reference = ref := by rw [htx]
      rw [hw2]
      exact refsUnique_push st uid w tx _ hid hfw (by rw [href]; exact hdup)
        (by rw [href]; exact hother) h
  | extTransfer uid amount acct bank u desc bankOk gwOk =>
    unfold applyOp
    cases hc : initiateExternalTransfer st uid amount acct bank u desc bankOk gwOk with
    | error e => simp only [hc]; exact h
    | ok res =>
      obtain ⟨st2, w2, tx⟩ := res
      simp only [hc]
      obtain ⟨w, hfw, hlt, hdup, hother, htx, hw2, hst2⟩ := initiateExternalTransfer_ok hc
      subst hst2
      have href : tx.reference = "EXT-TRANSFER-" ++ u := by rw [htx]
      rw [hw2]
      exact refsUnique_push st uid w tx _ hid hfw (by rw [href]; exact hdup)
        (by rw [href]; exact hother) h
  | transfer sid acct amount u1 u2 desc =>
    unfold applyOp
    cases hc : transferFunds st sid acct amount u1 u2 desc with
    | error e => simp only [hc]; exact h
    | ok res =>
      obtain ⟨st2, sTx, rTx⟩ := res
      simp only [hc]
      obtain ⟨sw, ru, rw2, hsw, hlt, hru, hrw, hd1, hd2, ho1, hsTx, hrTx, ho2, hst2⟩ :=
        transferFunds_ok hc
      subst hst2
      have hsref : sTx.reference = "TRANSFER-SENDER-" ++ u1 := by rw [hsTx]
      have hrref : rTx.reference = "TRANSFER-RECIPIENT-" ++ u2 := by rw [hrTx]
      have hsid : sw.userId = sid := findWallet_userId hsw
      have hrid : rw2.userId = ru.userId := findWallet_userId hrw
      have hid1 : walletIdsUnique (updateWallet st
          { sw with balance := sw.balance - amount, ledger := sw.ledger ++ [sTx] }) := by
        unfold walletIdsUnique
        rw [updateWallet_ids]
        exact hid
      have hru1 : refsUnique (updateWallet st
          { sw with balance := sw.balance - amount, ledger := sw.ledger ++ [sTx] }) :=
        refsUnique_push st sid sw sTx _ hid hsw (by rw [hsref]; exact hd1)
          (by rw [hsref]; exact ho1) h
      by_cases hcase : ru.userId = sid
      · have hrw' : findWallet st sid = some rw2 := by rw [← hcase]; exact hrw
        have heq : rw2 = sw := Option.some.inj (hrw'.symm.trans hsw)
        rw [heq] at hd2 hrid
        rw [heq]
        have hfind1 : findWallet (updateWallet st
            { sw with balance := sw.balance - amount, ledger := sw.ledger ++ [sTx] }) sid =
            some { sw with balance := sw.balance - amount, ledger := sw.ledger ++ [sTx] } := by
          rw [findWallet_updateWallet, hsw]
          simp
        refine refsUnique_updateWallet_of _ sid
          { sw with balance := sw.balance - amount, ledger := sw.ledger ++ [sTx] }
          _ hid1 hfind1 (by dsimp only; rw [hrid, hcase]) ?_ ?_ hru1
        · rw [walletRefs_push]
          refine List.Nodup.append (nodup_of_mem_flatMap h (findWallet_mem hsw))
            (by simp) ?_
          intro a ha har
          rw [List.mem_singleton] at har
          subst har
          exact hasRef_false_not_mem (by rw [hrref]; exact hd2) ha
        · intro r hr
          rw [walletRefs_push] at hr
          rcases List.mem_append.1 hr with hrw3 | hrr
          · left
            rw [walletRefs_push]
            exact List.mem_append.2 (Or.inl hrw3)
          · rw [List.mem_singleton] at hrr
            subst hrr
            right
            intro x hx hmem
            by_cases hxeq : x.userId = sid
            · have hxw : x = { sw with balance := sw.balance - amount,
                                       ledger := sw.ledger ++ [sTx] } :=
                mem_id_eq hid1 hx (findWallet_mem hfind1) (by rw [hxeq]; dsimp only; rw [hsid])
              rw [hxw, walletRefs_push] at hmem
              rcases List.mem_append.1 hmem with hmem1 | hmem2
              · exact hasRef_false_not_mem (by rw [hrref]; exact hd2) hmem1
              · rw [List.mem_singleton] at hmem2
                rw [hrref, hsref] at hmem2
                exact senderRef_ne_recipientRef u1 u2 hmem2
            · refine refInOther_false_spec ?_ x hx hxeq hmem
              rw [hrref]
              rw [hcase] at ho2
              exact ho2
      · have hne2 : rw2.userId ≠ sw.userId := by rw [hrid, hsid]; exact hcase
        have hfind1 : findWallet (updateWallet st
            { sw with balance := sw.balance - amount, ledger := sw.ledger ++ [sTx] })
            ru.userId = some rw2 := by
          rw [findWallet_updateWallet, hrw]
          simp [hne2]
        exact refsUnique_push _ ru.userId rw2 rTx _ hid1 hfind1
          (by rw [hrref]; exact hd2) (by rw [hrref]; exact ho2) hru1

/-- C2.  Starting from a state whose ledger references are globally unique —
with the wallet-owner unique index in force — any sequence of credit, debit,
internal-transfer and external-transfer invocations, committed or aborted,
repeated or not, leaves at most one ledger entry per reference system-wide:
the in-document duplicate check plus the unique multikey index on
`ledger.reference` enforced at every save preserve global uniqueness. -/
theorem reference_global_uniqueness (ops : List WalletOp) (st : SysState)
    (hid : walletIdsUnique st) (h : refsUnique st) :
    refsUnique (applyOps st ops) := by
  induction ops generalizing st with
  | nil => exact h
  | cons op rest ih =>
    exact ih (applyOp st op) (applyOp_ids st op hid) (applyOp_refsUnique st op hid h)

/-- Witness for `reference_global_uniqueness`: a funding credit followed by an
internal transfer keeps all references distinct on the concrete test state. -/
theorem reference_global_uniqueness_witness :
    walletIdsUnique baseState ∧ refsUnique baseState ∧
    refsUnique (applyOps baseState fundThenTransfer) :=
  ⟨by decide, by decide,
    reference_global_uniqueness fundThenTransfer baseState (by decide) (by decide)⟩

end NegaiBanking
